import Mathlib

/-!
Shallow embedding of `icon-generator.py` (Tauri-Icon-Generator).

The script reads a source image, normalizes it to 1024x1024, and writes
Linux PNGs, a Windows ICO, and a macOS ICNS into `src-tauri/icons`.
Filesystem state is modelled explicitly (files as an association list from
paths to decoded contents, plus a directory list); console output is a list
of printed lines; exceptions are modelled with `Except`/`Option Err`.
The external image/container library calls (PIL `resize`/`save`, icnsutil)
are collaborators the spec declares out of scope; they enter as an explicit
`ExtLib` record of operations, with `modelLib` as the deterministic
honest model used for concrete evaluation.
-/

set_option autoImplicit false

namespace IconGen

/-- A filesystem path, as its list of components (`src-tauri/icons` is
`["src-tauri", "icons"]`). -/
abbrev FPath := List String

/-- An in-memory raster: width, height, and an abstract pixel payload.
PIL pixel data is outside the embedding; `data` stands for it. -/
structure Image where
  width : Nat
  height : Nat
  data : Nat
deriving DecidableEq, Repr

/-- PIL's `image.size` tuple. -/
def Image.size (i : Image) : Nat × Nat := (i.width, i.height)

/-- Decoded content of a stored file. -/
inductive FileContent where
  | png (img : Image)
  | ico (frames : List Image)
  | icns (reps : List Image)
deriving DecidableEq, Repr

/-- Decoding a stored file back to a raster (`Image.open`, and icnsutil's
`add_media` reading a staged file). Non-raster contents decode to a junk
raster; only the `png` case is exercised by the script's own files. -/
def FileContent.toImage : FileContent → Image
  | .png i => i
  | .ico _ => Image.mk 0 0 0
  | .icns _ => Image.mk 0 0 0

/-- A Python exception, abstracted to its message. -/
structure Err where
  msg : String
deriving DecidableEq, Repr

/-- The filesystem: files (path, decoded content) and directories. -/
structure FS where
  files : List (FPath × FileContent)
  dirs : List FPath
deriving DecidableEq, Repr

/-- Python `str(Path(...))`. -/
def pathStr (p : FPath) : String := String.intercalate ("/") p

/-- Splitting a character list on `/`, accumulating the current (reversed)
component. Structural recursion, so it evaluates by reduction. -/
def pathCompsAux : List Char → List Char → List String
  | [], acc => [String.mk acc.reverse]
  | c :: rest, acc =>
    if c = '/' then String.mk acc.reverse :: pathCompsAux rest []
    else pathCompsAux rest (c :: acc)

/-- Python `Path(s)`: split a CLI string into path components. -/
def strToPath (s : String) : FPath := pathCompsAux s.data []

/-- Content of the file at `p`, if a file is there. -/
def FS.lookupFile (fs : FS) (p : FPath) : Option FileContent :=
  (fs.files.find? (fun e => e.1 == p)).map (fun e => e.2)

/-- Whether a file (not a directory) is at `p`. -/
def FS.hasFile (fs : FS) (p : FPath) : Bool := fs.files.any (fun e => e.1 == p)

/-- Python `Path.exists()`: true for files and directories alike. -/
def FS.existsPath (fs : FS) (p : FPath) : Bool :=
  fs.hasFile p || fs.dirs.contains p

/-- Python `img.save(p)`: overwrite the file at `p` if present, else append it. -/
def FS.save (fs : FS) (p : FPath) (c : FileContent) : FS :=
  if fs.hasFile p then
    { fs with files := fs.files.map (fun e => if e.1 == p then (p, c) else e) }
  else
    { fs with files := fs.files ++ [(p, c)] }

/-- Python `Path.mkdir(exist_ok=True)`: a pre-existing directory is tolerated; a
regular file at the path raises `FileExistsError`; a missing parent
directory raises `FileNotFoundError`. -/
def FS.mkdir (fs : FS) (p : FPath) : Except Err FS :=
  if fs.dirs.contains p then .ok fs
  else if fs.hasFile p then .error (Err.mk ("File exists: " ++ pathStr p))
  else if p.dropLast ≠ [] && !(fs.dirs.contains p.dropLast) then
    .error (Err.mk ("No such file or directory: " ++ pathStr p))
  else .ok { fs with dirs := fs.dirs ++ [p] }

/-- Create the directory `pre ++ [c]` for each successive component `c`,
extending the prefix as it goes. -/
def FS.mkdirAlong (fs : FS) (pre : FPath) : List String → Except Err FS
  | [] => .ok fs
  | c :: rest =>
    match FS.mkdir fs (pre ++ [c]) with
    | .error e => .error e
    | .ok fs1 => FS.mkdirAlong fs1 (pre ++ [c]) rest

/-- Python `Path.mkdir(parents=True, exist_ok=True)`: create every prefix of `p`
in order. -/
def FS.mkdirParents (fs : FS) (p : FPath) : Except Err FS :=
  FS.mkdirAlong fs [] p

/-- Python `shutil.rmtree(d, ignore_errors=True)`: drop `d` itself, everything
under it, and every file under it. -/
def FS.rmtree (fs : FS) (d : FPath) : FS :=
  { files := fs.files.filter (fun e => !(List.isPrefixOf d e.1)),
    dirs := fs.dirs.filter (fun q => !(List.isPrefixOf d q)) }

/-- String suffix test, by character lists (structurally recursive, so it
evaluates by reduction; equivalent to `str.endswith`). -/
def strEndsWith (s post : String) : Bool :=
  List.isPrefixOf post.data.reverse s.data.reverse

/-- Python `dir.glob("*.png")` membership: `p` is a direct child of `dir` whose
name ends in `.png`. -/
def isDirectChildPng (dir p : FPath) : Bool :=
  p.dropLast == dir &&
    (match p.getLast? with
     | some n => strEndsWith n (".png")
     | none => false)

/-- Process-observable state: filesystem plus printed lines. -/
structure World where
  fs : FS
  out : List String
deriving DecidableEq, Repr

/-- Python `print(s)`. -/
def World.print (w : World) (s : String) : World := { w with out := w.out ++ [s] }

/-- The external image/container library (PIL, icnsutil), out of scope per
the spec: resizing, PNG/ICO encoding-and-writing, and ICNS assembly
(`IcnsFile` + `add_media` + `write`, which may raise). -/
structure ExtLib where
  resize : Image → Nat → Nat → Image
  savePng : Image → Except Err FileContent
  saveIco : List Image → Except Err FileContent
  icnsWrite : List Image → Except Err FileContent

/-- Honest deterministic model of the external library: resizing keeps the
payload and sets the requested dimensions; encoders never fail. -/
def modelLib : ExtLib where
  resize := fun i w h => Image.mk w h i.data
  savePng := fun i => .ok (.png i)
  saveIco := fun l => .ok (.ico l)
  icnsWrite := fun reps => .ok (.icns reps)

/-- Outcome of running the script: normal return of `generate_icons`, or a
`sys.exit(msg)` (which exits with status 1). -/
inductive RunResult where
  | success
  | exited (msg : String)
deriving DecidableEq, Repr

/-- Process exit status: 0 on success, 1 for `sys.exit(msg)` with a string
message. -/
def exitCode : RunResult → Nat
  | .success => 0
  | .exited _ => 1

/-- Source constant `DEFAULT_SOURCE = "icon.png"` (line 9). -/
def DEFAULT_SOURCE : String := "icon.png"

/-- Source constant `OUTPUT_DIR = Path("src-tauri/icons")` (line 10). -/
def OUTPUT_DIR : FPath := ["src-tauri", "icons"]

/-- The three per-platform size tables of the `ICON_SIZES` dict. -/
structure SizeTables where
  linux : List (Nat × Nat × String)
  windows : List (Nat × Nat)
  macos : List (String × Nat)

/-- Source table `ICON_SIZES` (lines 11-38). -/
def ICON_SIZES : SizeTables where
  linux := [
    (32, 32, "32x32.png"),
    (128, 128, "128x128.png"),
    (256, 256, "128x128@2x.png"),
    (256, 256, "256x256.png"),
    (512, 512, "512x512.png")]
  windows := [
    (16, 16),
    (32, 32),
    (48, 48),
    (64, 64),
    (256, 256)]
  macos := [
    ("icon_16x16.png", 16),
    ("icon_16x16@2x.png", 32),
    ("icon_32x32.png", 32),
    ("icon_32x32@2x.png", 64),
    ("icon_128x128.png", 128),
    ("icon_128x128@2x.png", 256),
    ("icon_256x256.png", 256),
    ("icon_256x256@2x.png", 512),
    ("icon_512x512.png", 512),
    ("icon_512x512@2x.png", 1024)]

/-- Sequencing of fallible steps: a raised exception skips the rest. -/
def stepBind (r : World × Option Err) (f : World → World × Option Err) :
    World × Option Err :=
  match r with
  | (w, none) => f w
  | (w, some e) => (w, some e)

/-- Source function `validate_image` (lines 40-45): if the size differs from 1024x1024,
print a warning and resize; otherwise return the image unchanged. -/
def validate_image (L : ExtLib) (image : Image) (w : World) : Image × World :=
  if image.size ≠ (1024, 1024) then
    (L.resize image 1024 1024,
      w.print ("Warning: Image is not 1024x1024. Auto-resizing..."))
  else
    (image, w)

/-- One iteration of the `generate_linux_icons` loop body (lines 49-51):
resize to the entry's dimensions and save under the entry's filename. -/
def linuxStep (L : ExtLib) (image : Image) (output_dir : FPath)
    (acc : World × Option Err) (entry : Nat × Nat × String) : World × Option Err :=
  match acc with
  | (w1, some e) => (w1, some e)
  | (w1, none) =>
    match L.savePng (L.resize image entry.1 entry.2.1) with
    | .error e => (w1, some e)
    | .ok c => ({ w1 with fs := w1.fs.save (output_dir ++ [entry.2.2]) c }, none)

/-- Source function `generate_linux_icons` (lines 47-51): for each table entry, resize and
save `output_dir / filename`; a raised save error aborts the rest. -/
def generate_linux_icons (L : ExtLib) (image : Image) (output_dir : FPath)
    (w : World) : World × Option Err :=
  ICON_SIZES.linux.foldl (linuxStep L image output_dir) (w, none)

/-- Source function `generate_windows_icon` (lines 53-61): resize to the five table sizes
and save all frames, in table order, as `output_dir / "icon.ico"`. -/
def generate_windows_icon (L : ExtLib) (image : Image) (output_dir : FPath)
    (w : World) : World × Option Err :=
  let ico_images := ICON_SIZES.windows.map (fun s => L.resize image s.1 s.2)
  match L.saveIco ico_images with
  | .error e => (w, some e)
  | .ok c => ({ w with fs := w.fs.save (output_dir ++ ["icon.ico"]) c }, none)

/-- One iteration of the Stage loop body (lines 69-71): resize to a square
of the entry's size and save under the entry's filename in the staging
directory. -/
def macosStageStep (L : ExtLib) (image : Image) (iconset_dir : FPath)
    (acc : World × Option Err) (entry : String × Nat) : World × Option Err :=
  match acc with
  | (w1, some e) => (w1, some e)
  | (w1, none) =>
    match L.savePng (L.resize image entry.2 entry.2) with
    | .error e => (w1, some e)
    | .ok c => ({ w1 with fs := w1.fs.save (iconset_dir ++ [entry.1]) c }, none)

/-- The Stage phase of `generate_macos_icon` (lines 68-71): resize and save
the ten iconset variants into the staging directory. -/
def macosStage (L : ExtLib) (image : Image) (iconset_dir : FPath)
    (w : World) : World × Option Err :=
  ICON_SIZES.macos.foldl (macosStageStep L image iconset_dir) (w, none)

/-- The Pack phase of `generate_macos_icon` (lines 73-77): add a media
entry for every `*.png` direct child of the staging directory, in
filesystem order, then write `output_dir / "icon.icns"`. -/
def macosPack (L : ExtLib) (iconset_dir output_dir : FPath)
    (w : World) : World × Option Err :=
  let reps := (w.fs.files.filter (fun e => isDirectChildPng iconset_dir e.1)).map
    (fun e => FileContent.toImage e.2)
  match L.icnsWrite reps with
  | .error e => (w, some e)
  | .ok c => ({ w with fs := w.fs.save (output_dir ++ ["icon.icns"]) c }, none)

/-- Source function `generate_macos_icon` (lines 63-83): `mkdir(exist_ok=True)` outside the
`try`; then Stage and Pack inside it; the `except` clause prints the error
and re-raises; the `finally` clause removes the staging directory on every
path through the `try`. -/
def generate_macos_icon (L : ExtLib) (image : Image) (output_dir : FPath)
    (w : World) : World × Option Err :=
  let iconset_dir := output_dir ++ ["icon.iconset"]
  match FS.mkdir w.fs iconset_dir with
  | .error e => (w, some e)
  | .ok fs1 =>
    match stepBind (macosStage L image iconset_dir { w with fs := fs1 })
        (fun w2 => macosPack L iconset_dir output_dir w2) with
    | (w2, r) =>
      let w3 :=
        match r with
        | some e => w2.print ("Error generating .icns: " ++ e.msg)
        | none => w2
      ({ w3 with fs := w3.fs.rmtree iconset_dir }, r)

/-- Python `Image.open(source)` followed by `.convert("RGBA")` (line 96-97): decode
the stored file; a path that exists but holds no decodable file (e.g. a
directory) raises. Mode conversion is invisible in this model. -/
def openImage (fs : FS) (p : FPath) : Except Err Image :=
  match fs.lookupFile p with
  | some c => .ok (FileContent.toImage c)
  | none => .error (Err.mk ("cannot identify image file: " ++ pathStr p))

/-- The generator block of `generate_icons` (lines 100-102): Linux, then
Windows, then macOS, each aborting the rest on a raised exception. -/
def generateAll (L : ExtLib) (image : Image) (w : World) : World × Option Err :=
  stepBind
    (stepBind (generate_linux_icons L image OUTPUT_DIR w)
      (fun w1 => generate_windows_icon L image OUTPUT_DIR w1))
    (fun w2 => generate_macos_icon L image OUTPUT_DIR w2)

/-- The body of the `with Image.open(...)` block plus the success print
and the top-level handler's reaction to generator errors (lines 97-104):
validate the decoded raster, run the three generators, report. -/
def processImage (L : ExtLib) (img0 : Image) (w : World) : World × RunResult :=
  match validate_image L img0 w with
  | (image, w2) =>
    match generateAll L image w2 with
    | (w3, none) => (w3.print ("✓ All icons generated successfully!"), .success)
    | (w3, some e) => (w3, .exited ("✗ Error: " ++ e.msg))

/-- Source function `generate_icons` (lines 85-107): existence check on the source, then
`OUTPUT_DIR.mkdir(parents=True, exist_ok=True)`, then decode, validate,
run the three generators, and print the success line; any exception is
caught by the top-level handler and turned into `sys.exit` with the
formatted message. -/
def generate_icons (L : ExtLib) (source_path : String) (w : World) :
    World × RunResult :=
  let source := strToPath source_path
  if w.fs.existsPath source then
    match FS.mkdirParents w.fs OUTPUT_DIR with
    | .error e => (w, .exited ("✗ Error: " ++ e.msg))
    | .ok fs1 =>
      match openImage fs1 source with
      | .error e => ({ w with fs := fs1 }, .exited ("✗ Error: " ++ e.msg))
      | .ok img0 => processImage L img0 { w with fs := fs1 }
  else
    (w, .exited ("✗ Error: " ++ ("Source file not found: " ++ pathStr source)))

/-- The `__main__` block (lines 109-110): `generate_icons()` is called with
no argument, so the command line `argv` is never consulted and the default
source path is always used. -/
def mainEntry (L : ExtLib) (argv : List String) (w : World) : World × RunResult :=
  generate_icons L DEFAULT_SOURCE w

/-! Claim-side observation helpers and distinguished initial states. -/

/-- A fresh run's state: the default source file holding `image`, nothing
else on disk, nothing printed. -/
def initWorld (image : Image) : World :=
  World.mk (FS.mk [(["icon.png"], FileContent.png image)] []) []

/-- The canonical raster `validate_image` hands to the generators, under
the honest library model: the input unchanged when already 1024x1024,
else the payload-preserving resize to 1024x1024. -/
def canonicalOf (i : Image) : Image :=
  if i.size = (1024, 1024) then i else Image.mk 1024 1024 i.data

/-- Console warning emitted by `validate_image`: empty for a 1024x1024
input, the auto-resize warning otherwise. -/
def warnOf (i : Image) : List String :=
  if i.size = (1024, 1024) then []
  else ["Warning: Image is not 1024x1024. Auto-resizing..."]

/-- The filesystem a fresh successful run leaves behind (source `src`
untouched, all outputs derived from the canonical raster `t`). -/
def expectedFS (src t : Image) : FS :=
  FS.mk
    [(["icon.png"], .png src),
     (["src-tauri", "icons", "32x32.png"], .png (Image.mk 32 32 t.data)),
     (["src-tauri", "icons", "128x128.png"], .png (Image.mk 128 128 t.data)),
     (["src-tauri", "icons", "128x128@2x.png"], .png (Image.mk 256 256 t.data)),
     (["src-tauri", "icons", "256x256.png"], .png (Image.mk 256 256 t.data)),
     (["src-tauri", "icons", "512x512.png"], .png (Image.mk 512 512 t.data)),
     (["src-tauri", "icons", "icon.ico"],
       .ico [Image.mk 16 16 t.data, Image.mk 32 32 t.data, Image.mk 48 48 t.data,
             Image.mk 64 64 t.data, Image.mk 256 256 t.data]),
     (["src-tauri", "icons", "icon.icns"],
       .icns [Image.mk 16 16 t.data, Image.mk 32 32 t.data, Image.mk 32 32 t.data,
              Image.mk 64 64 t.data, Image.mk 128 128 t.data, Image.mk 256 256 t.data,
              Image.mk 256 256 t.data, Image.mk 512 512 t.data, Image.mk 512 512 t.data,
              Image.mk 1024 1024 t.data])]
    [["src-tauri"], ["src-tauri", "icons"]]

/-- The seven output files of the tool, relative to the project root. -/
def outputPaths : List FPath :=
  [["src-tauri", "icons", "32x32.png"],
   ["src-tauri", "icons", "128x128.png"],
   ["src-tauri", "icons", "128x128@2x.png"],
   ["src-tauri", "icons", "256x256.png"],
   ["src-tauri", "icons", "512x512.png"],
   ["src-tauri", "icons", "icon.ico"],
   ["src-tauri", "icons", "icon.icns"]]

/-- Number of `*.png` files directly inside `dir`. -/
def countDirectPngs (fs : FS) (dir : FPath) : Nat :=
  (fs.files.filter (fun e => isDirectChildPng dir e.1)).length

/-- Number of frames of a stored ICO container (0 if absent or not ICO). -/
def icoFrameCount : Option FileContent → Nat
  | some (.ico l) => l.length
  | _ => 0

/-- Representations of a stored ICNS container ([] if absent or not ICNS). -/
def icnsRepsList : Option FileContent → List Image
  | some (.icns r) => r
  | _ => []

/-- Number of representations of a stored ICNS container. -/
def icnsRepsCount : Option FileContent → Nat
  | some (.icns r) => r.length
  | _ => 0

/-- An adversarial but reachable start state: the source present, and a
left-over `icon.iconset` staging directory containing one stray PNG. -/
def dirtyStagingWorld : World :=
  World.mk
    (FS.mk
      [(["icon.png"], FileContent.png (Image.mk 1024 1024 1)),
       (["src-tauri", "icons", "icon.iconset", "stray.png"],
         FileContent.png (Image.mk 1 1 9))]
      [["src-tauri"], ["src-tauri", "icons"], ["src-tauri", "icons", "icon.iconset"]])
    []

/-! Phase-structured orchestrations used to state the sequencing claim. -/

/-- The loader's existence check (lines 89-91) as a phase. -/
def checkSourcePhase (sp : String) (w : World) : World × Option Err :=
  if w.fs.existsPath (strToPath sp) then (w, none)
  else (w, some (Err.mk ("Source file not found: " ++ pathStr (strToPath sp))))

/-- Ensuring the output directory (line 93) as a phase. -/
def ensureOutputDirPhase (w : World) : World × Option Err :=
  match FS.mkdirParents w.fs OUTPUT_DIR with
  | .ok fs1 => ({ w with fs := fs1 }, none)
  | .error e => (w, some e)

/-- Decoding and validating the source (lines 96-97) as a phase. -/
def loadAndValidate (L : ExtLib) (sp : String) (w : World) :
    Except Err (Image × World) :=
  match openImage w.fs (strToPath sp) with
  | .error e => .error e
  | .ok img0 => .ok (validate_image L img0 w)

/-- The orchestrator as the ordered composition of its phases, in the
order the code runs them: source-existence check, then ensure the output
directory, then decode and validate, then the Linux, Windows, and macOS
generators, then the success report; any raised error becomes a
`sys.exit` with the formatted message. -/
def orchestrateCodeOrder (L : ExtLib) (sp : String) (w : World) :
    World × RunResult :=
  match stepBind (checkSourcePhase sp w)
      (fun w0 =>
        match ensureOutputDirPhase w0 with
        | (w1, some e) => (w1, some e)
        | (w1, none) =>
          match loadAndValidate L sp w1 with
          | .error e => (w1, some e)
          | .ok (image, w2) => generateAll L image w2) with
  | (wf, none) => (wf.print ("✓ All icons generated successfully!"), .success)
  | (wf, some e) => (wf, .exited ("✗ Error: " ++ e.msg))

/-- Spec-side orchestration for the refinement comparison, following the
claim's stated order: FIRST ensure the output directory exists, THEN run
the loader (whose contract includes the NotFound failure on an absent
source), then validate, generators, report. -/
def orchestrateSpecOrder (L : ExtLib) (sp : String) (w : World) :
    World × RunResult :=
  match stepBind (ensureOutputDirPhase w)
      (fun w0 =>
        match checkSourcePhase sp w0 with
        | (w1, some e) => (w1, some e)
        | (w1, none) =>
          match loadAndValidate L sp w1 with
          | .error e => (w1, some e)
          | .ok (image, w2) => generateAll L image w2) with
  | (wf, none) => (wf.print ("✓ All icons generated successfully!"), .success)
  | (wf, some e) => (wf, .exited ("✗ Error: " ++ e.msg))

/-- The empty world: nothing on disk, nothing printed. -/
def emptyWorld : World := World.mk (FS.mk [] []) []

/-- A world where `other.png` exists but the default `icon.png` does not. -/
def otherSourceWorld : World :=
  World.mk (FS.mk [(["other.png"], FileContent.png (Image.mk 1024 1024 3))] []) []

/-- A library model whose ICNS writer always raises, to exercise the Pack
failure path. -/
def failPackLib : ExtLib where
  resize := fun i w h => Image.mk w h i.data
  savePng := fun i => .ok (.png i)
  saveIco := fun l => .ok (.ico l)
  icnsWrite := fun _ => .error (Err.mk ("mock pack failure"))


/-- A world where only the output directory tree exists. -/
def outDirsWorld : World :=
  World.mk (FS.mk [] [["src-tauri"], ["src-tauri", "icons"]]) []

lemma isPrefixOf_self (l : FPath) : List.isPrefixOf l l = true := by
  induction l with
  | nil => rfl
  | cons a t ih => simp [List.isPrefixOf, ih]

lemma rmtree_dirs_self (fs : FS) (d : FPath) : d ∉ (fs.rmtree d).dirs := by
  intro hd
  have h := List.mem_filter.mp hd
  rw [isPrefixOf_self] at h
  simp at h

lemma mkdir_error_not_dir (fs : FS) (p : FPath) (e : Err)
    (h : FS.mkdir fs p = .error e) : p ∉ fs.dirs := by
  intro hp
  unfold FS.mkdir at h
  rw [if_pos (show fs.dirs.contains p = true from List.elem_eq_true_of_mem hp)] at h
  cases h

lemma find_map_replace (p : FPath) (c : FileContent) :
    ∀ (l : List (FPath × FileContent)), l.any (fun e => e.1 == p) = true →
      ((l.map (fun e => if e.1 == p then (p, c) else e)).find?
          (fun e => e.1 == p)).map (fun e => e.2) = some c := by
  intro l
  induction l with
  | nil => intro h; simp at h
  | cons e t ih =>
    intro h
    rw [List.any_cons, Bool.or_eq_true] at h
    by_cases he : (e.1 == p) = true
    · rw [List.map_cons, if_pos he]
      have hfind : List.find? (fun e => e.1 == p)
          ((p, c) :: List.map (fun e => if (e.1 == p) = true then (p, c) else e) t) =
          some (p, c) :=
        List.find?_cons_of_pos _ (beq_self_eq_true p)
      rw [hfind]
      rfl
    · rw [List.map_cons, if_neg he]
      have hfind : List.find? (fun e => e.1 == p)
          (e :: List.map (fun e => if (e.1 == p) = true then (p, c) else e) t) =
          List.find? (fun e => e.1 == p)
            (List.map (fun e => if (e.1 == p) = true then (p, c) else e) t) :=
        List.find?_cons_of_neg _ he
      rw [hfind]
      exact ih (h.resolve_left he)

lemma find_append_single (p : FPath) (c : FileContent) :
    ∀ (l : List (FPath × FileContent)), l.any (fun e => e.1 == p) = false →
      ((l ++ [(p, c)]).find? (fun e => e.1 == p)).map (fun e => e.2) = some c := by
  intro l
  induction l with
  | nil =>
    intro h
    have hfind : List.find? (fun e => e.1 == p) ([] ++ [(p, c)]) = some (p, c) :=
      List.find?_cons_of_pos _ (beq_self_eq_true p)
    rw [hfind]
    rfl
  | cons e t ih =>
    intro h
    rw [List.any_cons, Bool.or_eq_false_iff] at h
    have hfind : List.find? (fun e => e.1 == p) ((e :: t) ++ [(p, c)]) =
        List.find? (fun e => e.1 == p) (t ++ [(p, c)]) :=
      List.find?_cons_of_neg _ (by simp [h.1])
    rw [hfind]
    exact ih h.2

lemma lookupFile_save (fs : FS) (p : FPath) (c : FileContent) :
    (fs.save p c).lookupFile p = some c := by
  unfold FS.save FS.lookupFile FS.hasFile
  by_cases hf : fs.files.any (fun e => e.1 == p) = true
  · rw [if_pos hf]
    exact find_map_replace p c fs.files hf
  · rw [if_neg hf]
    exact find_append_single p c fs.files (Bool.eq_false_iff.mpr hf)

lemma stageFold_ok (L : ExtLib) (image : Image) (d : FPath)
    (hsave : ∀ i, L.savePng i = .ok (.png i)) :
    ∀ (entries : List (String × Nat)) (w : World),
      ((entries.foldl (macosStageStep L image d) (w, none)).1.out = w.out) ∧
      ((entries.foldl (macosStageStep L image d) (w, none)).2 = none) := by
  intro entries
  induction entries with
  | nil => intro w; exact ⟨rfl, rfl⟩
  | cons e t ih =>
    intro w
    rw [List.foldl_cons]
    have hstep : macosStageStep L image d (w, none) e =
        ({ w with fs := w.fs.save (d ++ [e.1]) (.png (L.resize image e.2 e.2)) }, none) := by
      simp [macosStageStep, hsave]
    rw [hstep]
    exact ih _

/-- C2: after every execution of the macOS generator - normal return,
staging failure, packaging failure, or a failure of the staging mkdir
itself - the `icon.iconset` staging directory does not exist. -/
theorem c2_staging_removed (L : ExtLib) (image : Image) (output_dir : FPath)
    (w : World) :
    (output_dir ++ ["icon.iconset"]) ∉
      (generate_macos_icon L image output_dir w).1.fs.dirs := by
  unfold generate_macos_icon
  cases hmk : FS.mkdir w.fs (output_dir ++ ["icon.iconset"]) with
  | error e =>
    simp only [hmk]
    exact mkdir_error_not_dir _ _ _ hmk
  | ok fs1 =>
    simp only [hmk]
    cases stepBind (macosStage L image (output_dir ++ ["icon.iconset"]) { w with fs := fs1 })
        (fun w2 => macosPack L (output_dir ++ ["icon.iconset"]) output_dir w2) with
    | mk w2 r =>
      cases r with
      | none => exact rmtree_dirs_self _ _
      | some e => exact rmtree_dirs_self _ _

/-- C6: the Windows generator resizes the canonical raster to exactly
16, 32, 48, 64 and 256 squares, in that (smallest-first) order, and saves
all five frames as the single container `output_dir/icon.ico`. -/
theorem c6_windows_icon (L : ExtLib) (image : Image) (output_dir : FPath) (w : World)
    (hres : ∀ i a b, (L.resize i a b).size = (a, b))
    (hico : ∀ l, L.saveIco l = .ok (.ico l)) :
    (generate_windows_icon L image output_dir w).2 = none ∧
    (generate_windows_icon L image output_dir w).1.fs.lookupFile
        (output_dir ++ ["icon.ico"]) =
      some (.ico (ICON_SIZES.windows.map (fun s => L.resize image s.1 s.2))) ∧
    (ICON_SIZES.windows.map (fun s => L.resize image s.1 s.2)).map Image.size =
      [(16, 16), (32, 32), (48, 48), (64, 64), (256, 256)] := by
  refine ⟨?_, ?_, ?_⟩
  · simp [generate_windows_icon, hico]
  · simp only [generate_windows_icon, hico]
    exact lookupFile_save _ _ _
  · simp [ICON_SIZES, hres]

/-- C7: when staging succeeds and the ICNS packaging raises `e`, the
generator prints a log line containing the message of `e`, removes the
staging directory, and re-raises the very same `e` to its caller. -/
theorem c7_pack_failure (L : ExtLib) (image : Image) (output_dir : FPath)
    (w : World) (e : Err) (fs1 : FS)
    (hsave : ∀ i, L.savePng i = .ok (.png i))
    (hpack : ∀ reps, L.icnsWrite reps = .error e)
    (hmk : FS.mkdir w.fs (output_dir ++ ["icon.iconset"]) = .ok fs1) :
    (generate_macos_icon L image output_dir w).2 = some e ∧
    (generate_macos_icon L image output_dir w).1.out =
      w.out ++ ["Error generating .icns: " ++ e.msg] ∧
    (output_dir ++ ["icon.iconset"]) ∉
      (generate_macos_icon L image output_dir w).1.fs.dirs := by
  unfold generate_macos_icon
  simp only [hmk]
  have hstage := stageFold_ok L image (output_dir ++ ["icon.iconset"]) hsave
    ICON_SIZES.macos { w with fs := fs1 }
  cases hst : macosStage L image (output_dir ++ ["icon.iconset"]) { w with fs := fs1 } with
  | mk wS rS =>
    unfold macosStage at hst
    rw [hst] at hstage
    obtain ⟨ho, hr⟩ := hstage
    subst hr
    have hst' : macosStage L image (output_dir ++ ["icon.iconset"]) { w with fs := fs1 } =
        (wS, none) := hst
    have ho' : wS.out = w.out := ho
    refine ⟨?_, ?_, ?_⟩
    · simp [hst', stepBind, macosPack, hpack]
    · simp [hst', stepBind, macosPack, hpack, World.print, ho']
    · simp only [hst', stepBind, macosPack, hpack]
      exact rmtree_dirs_self _ _


/-- C3: when the source path names no existing file, the process exits
with status 1 and the not-found message, and the filesystem and console
are left exactly as they were: no output file is written. -/
theorem c3_missing_source (L : ExtLib) (sp : String) (w : World)
    (h : w.fs.existsPath (strToPath sp) = false) :
    generate_icons L sp w =
      (w, .exited ("✗ Error: " ++ ("Source file not found: " ++
        pathStr (strToPath sp)))) ∧
    exitCode (generate_icons L sp w).2 = 1 := by
  have hg : generate_icons L sp w =
      (w, .exited ("✗ Error: " ++ ("Source file not found: " ++
        pathStr (strToPath sp)))) := by
    simp [generate_icons, h]
  exact ⟨hg, by rw [hg]; rfl⟩

/-- C4: validation always yields a 1024x1024 raster; a 1024x1024 input is
returned unchanged without warning; any other input is resized with the
warning printed. -/
theorem c4_validate (L : ExtLib) (image : Image) (w : World)
    (hres : ∀ i a b, (L.resize i a b).size = (a, b)) :
    (validate_image L image w).1.size = (1024, 1024) ∧
    (image.size = (1024, 1024) → validate_image L image w = (image, w)) ∧
    (image.size ≠ (1024, 1024) →
      validate_image L image w =
        (L.resize image 1024 1024,
          w.print ("Warning: Image is not 1024x1024. Auto-resizing..."))) := by
  by_cases h : image.size = (1024, 1024)
  · refine ⟨?_, fun _ => ?_, fun hc => absurd h hc⟩
    · simp [validate_image, h]
    · simp [validate_image, h]
  · refine ⟨?_, fun hc => absurd hc h, fun _ => ?_⟩
    · simp [validate_image, h, hres]
    · simp [validate_image, h]

lemma generate_icons_fresh (image : Image) :
    generate_icons modelLib ("icon.png") (initWorld image) =
      (World.mk (expectedFS image (canonicalOf image))
        (warnOf image ++ ["✓ All icons generated successfully!"]), .success) := by
  obtain ⟨a, b, d⟩ := image
  by_cases h : ((a : Nat), (b : Nat)) = ((1024 : Nat), (1024 : Nat))
  · have hsz : Image.size (Image.mk a b d) = (1024, 1024) := h
    simp [generate_icons, processImage, strToPath, pathCompsAux, initWorld,
      FS.existsPath, FS.hasFile, FS.mkdirParents, FS.mkdirAlong, FS.mkdir,
      openImage, FS.lookupFile, OUTPUT_DIR, FileContent.toImage,
      validate_image, hsz, modelLib, generateAll, stepBind,
      generate_linux_icons, linuxStep, ICON_SIZES, FS.save,
      generate_windows_icon, generate_macos_icon, macosStage, macosStageStep,
      macosPack, isDirectChildPng, strEndsWith, FS.rmtree, World.print,
      expectedFS, canonicalOf, warnOf, List.isPrefixOf]
  · have hsz : ¬ Image.size (Image.mk a b d) = (1024, 1024) := h
    simp [generate_icons, processImage, strToPath, pathCompsAux, initWorld,
      FS.existsPath, FS.hasFile, FS.mkdirParents, FS.mkdirAlong, FS.mkdir,
      openImage, FS.lookupFile, OUTPUT_DIR, FileContent.toImage,
      validate_image, hsz, modelLib, generateAll, stepBind,
      generate_linux_icons, linuxStep, ICON_SIZES, FS.save,
      generate_windows_icon, generate_macos_icon, macosStage, macosStageStep,
      macosPack, isDirectChildPng, strEndsWith, FS.rmtree, World.print,
      expectedFS, canonicalOf, warnOf, List.isPrefixOf]


lemma generate_icons_again (image : Image) (outl : List String) :
    generate_icons modelLib ("icon.png")
        (World.mk (expectedFS image (canonicalOf image)) outl) =
      (World.mk (expectedFS image (canonicalOf image))
        (outl ++ warnOf image ++ ["✓ All icons generated successfully!"]),
       .success) := by
  obtain ⟨a, b, d⟩ := image
  by_cases h : ((a : Nat), (b : Nat)) = ((1024 : Nat), (1024 : Nat))
  · have hsz : Image.size (Image.mk a b d) = (1024, 1024) := h
    simp [generate_icons, processImage, strToPath, pathCompsAux, initWorld,
      FS.existsPath, FS.hasFile, FS.mkdirParents, FS.mkdirAlong, FS.mkdir,
      openImage, FS.lookupFile, OUTPUT_DIR, FileContent.toImage,
      validate_image, hsz, modelLib, generateAll, stepBind,
      generate_linux_icons, linuxStep, ICON_SIZES, FS.save,
      generate_windows_icon, generate_macos_icon, macosStage, macosStageStep,
      macosPack, isDirectChildPng, strEndsWith, FS.rmtree, World.print,
      expectedFS, canonicalOf, warnOf, List.isPrefixOf]
  · have hsz : ¬ Image.size (Image.mk a b d) = (1024, 1024) := h
    simp [generate_icons, processImage, strToPath, pathCompsAux, initWorld,
      FS.existsPath, FS.hasFile, FS.mkdirParents, FS.mkdirAlong, FS.mkdir,
      openImage, FS.lookupFile, OUTPUT_DIR, FileContent.toImage,
      validate_image, hsz, modelLib, generateAll, stepBind,
      generate_linux_icons, linuxStep, ICON_SIZES, FS.save,
      generate_windows_icon, generate_macos_icon, macosStage, macosStageStep,
      macosPack, isDirectChildPng, strEndsWith, FS.rmtree, World.print,
      expectedFS, canonicalOf, warnOf, List.isPrefixOf]

/-- C5 counterexample: a successful run started with a left-over staging
directory containing one stray PNG produces an ICNS with 11
representations, not 10. -/
theorem c5_counterexample :
    (generate_icons modelLib ("icon.png") dirtyStagingWorld).2 = .success ∧
    icnsRepsCount ((generate_icons modelLib ("icon.png") dirtyStagingWorld).1.fs.lookupFile
      (OUTPUT_DIR ++ ["icon.icns"])) = 11 := by
  exact ⟨by decide, by decide⟩


/-- C5 amended: for every run started from a fresh state (only the source
file on disk), the run succeeds and the output directory holds exactly 5
direct PNG files, an ICO with exactly 5 frames, and an ICNS with exactly
10 representations. -/
theorem c5_fresh_run_counts (image : Image) :
    (generate_icons modelLib ("icon.png") (initWorld image)).2 = .success ∧
    countDirectPngs (generate_icons modelLib ("icon.png") (initWorld image)).1.fs
      OUTPUT_DIR = 5 ∧
    icoFrameCount ((generate_icons modelLib ("icon.png") (initWorld image)).1.fs.lookupFile
      (OUTPUT_DIR ++ ["icon.ico"])) = 5 ∧
    icnsRepsCount ((generate_icons modelLib ("icon.png") (initWorld image)).1.fs.lookupFile
      (OUTPUT_DIR ++ ["icon.icns"])) = 10 := by
  rw [generate_icons_fresh]
  refine ⟨rfl, ?_, ?_, ?_⟩
  · simp [countDirectPngs, expectedFS, isDirectChildPng, strEndsWith, OUTPUT_DIR,
      List.isPrefixOf]
  · simp [expectedFS, FS.lookupFile, OUTPUT_DIR, icoFrameCount]
  · simp [expectedFS, FS.lookupFile, OUTPUT_DIR, icnsRepsCount]

/-- C9 counterexample: a stale staging directory makes the second run write
a different icon.icns than the first. -/
theorem c9_counterexample :
    (generate_icons modelLib ("icon.png") dirtyStagingWorld).2 = .success ∧
    (generate_icons modelLib ("icon.png")
        (generate_icons modelLib ("icon.png") dirtyStagingWorld).1).2 = .success ∧
    (generate_icons modelLib ("icon.png")
          (generate_icons modelLib ("icon.png") dirtyStagingWorld).1).1.fs.lookupFile
        (OUTPUT_DIR ++ ["icon.icns"]) ≠
      (generate_icons modelLib ("icon.png") dirtyStagingWorld).1.fs.lookupFile
        (OUTPUT_DIR ++ ["icon.icns"]) := by
  exact ⟨by decide, by decide, by decide⟩

/-- C9 amended: from a fresh start the pipeline is idempotent. -/
theorem c9_idempotent_fresh (image : Image) :
    (generate_icons modelLib ("icon.png") (initWorld image)).2 = .success ∧
    (generate_icons modelLib ("icon.png")
        (generate_icons modelLib ("icon.png") (initWorld image)).1).2 = .success ∧
    outputPaths.map (fun p =>
        (generate_icons modelLib ("icon.png")
          (generate_icons modelLib ("icon.png") (initWorld image)).1).1.fs.lookupFile p) =
      outputPaths.map (fun p =>
        (generate_icons modelLib ("icon.png") (initWorld image)).1.fs.lookupFile p) ∧
    (generate_icons modelLib ("icon.png")
        (generate_icons modelLib ("icon.png") (initWorld image)).1).1.fs =
      (generate_icons modelLib ("icon.png") (initWorld image)).1.fs := by
  simp [generate_icons_fresh, generate_icons_again]

/-- C10: the Pack phase adds one representation per PNG present at pack
time; pre-existing PNGs get packed; exactly 10 only from a fresh staging
directory. -/
theorem c10_pack_globs_stray (image extra : Image) :
    (generate_macos_icon modelLib image OUTPUT_DIR
        (World.mk (FS.mk [(OUTPUT_DIR ++ ["icon.iconset", "stray.png"], .png extra)]
          [OUTPUT_DIR ++ ["icon.iconset"]]) [])).2 = none ∧
    icnsRepsList ((generate_macos_icon modelLib image OUTPUT_DIR
        (World.mk (FS.mk [(OUTPUT_DIR ++ ["icon.iconset", "stray.png"], .png extra)]
          [OUTPUT_DIR ++ ["icon.iconset"]]) [])).1.fs.lookupFile
        (OUTPUT_DIR ++ ["icon.icns"])) =
      extra :: ICON_SIZES.macos.map (fun e => Image.mk e.2 e.2 image.data) ∧
    (generate_macos_icon modelLib image OUTPUT_DIR
        (World.mk (FS.mk [] [["src-tauri"], ["src-tauri", "icons"]]) [])).2 = none ∧
    icnsRepsList ((generate_macos_icon modelLib image OUTPUT_DIR
        (World.mk (FS.mk [] [["src-tauri"], ["src-tauri", "icons"]]) [])).1.fs.lookupFile
        (OUTPUT_DIR ++ ["icon.icns"])) =
      ICON_SIZES.macos.map (fun e => Image.mk e.2 e.2 image.data) := by
  obtain ⟨a, b, d⟩ := image
  obtain ⟨a2, b2, d2⟩ := extra
  refine ⟨?_, ?_, ?_, ?_⟩ <;>
    simp [generate_macos_icon, macosStage, macosStageStep, macosPack,
      stepBind, modelLib, ICON_SIZES, FS.mkdir, FS.hasFile, FS.save,
      isDirectChildPng, strEndsWith, FS.rmtree, FS.lookupFile, OUTPUT_DIR,
      FileContent.toImage, icnsRepsList, World.print, List.isPrefixOf]



/-- C1 counterexample: with `other.png` present on disk and supplied on the
command line, the run still looks for `icon.png` and exits, leaving the
world untouched, although opening the supplied path would have succeeded. -/
theorem c1_counterexample :
    (mainEntry modelLib ["icon-generator.py", "other.png"] otherSourceWorld).2 =
      .exited ("✗ Error: Source file not found: icon.png") ∧
    (mainEntry modelLib ["icon-generator.py", "other.png"] otherSourceWorld).1 =
      otherSourceWorld ∧
    (generate_icons modelLib ("other.png") otherSourceWorld).2 = .success := by
  exact ⟨by decide, by decide, by decide⟩

/-- C1 amended: the entry point ignores argv and always runs the default
source; generate_icons itself does consult its source-path parameter. -/
theorem c1_default_only (L : ExtLib) (argv argv' : List String) (w w2 : World)
    (sp : String) :
    mainEntry L argv w = generate_icons L DEFAULT_SOURCE w ∧
    mainEntry L argv w = mainEntry L argv' w ∧
    (w2.fs.existsPath (strToPath sp) = false →
      (generate_icons L sp w2).2 =
        .exited ("✗ Error: " ++ ("Source file not found: " ++
          pathStr (strToPath sp)))) := by
  refine ⟨rfl, rfl, fun h => ?_⟩
  simp [generate_icons, h]

theorem c1_default_only_witness :
    (generate_icons modelLib ("missing.png") emptyWorld).2 =
      .exited ("✗ Error: " ++ ("Source file not found: " ++
        pathStr (strToPath ("missing.png")))) :=
  (c1_default_only modelLib [] ["x"] emptyWorld emptyWorld ("missing.png")).2.2 (by decide)

theorem c3_missing_source_witness :
    generate_icons modelLib ("icon.png") emptyWorld =
      (emptyWorld, .exited ("✗ Error: " ++ ("Source file not found: " ++
        pathStr (strToPath ("icon.png"))))) ∧
    exitCode (generate_icons modelLib ("icon.png") emptyWorld).2 = 1 :=
  c3_missing_source modelLib ("icon.png") emptyWorld (by decide)

theorem c4_validate_witness :
    (validate_image modelLib (Image.mk 512 512 3) emptyWorld).1.size = (1024, 1024) ∧
    ((Image.mk 512 512 3).size = (1024, 1024) →
      validate_image modelLib (Image.mk 512 512 3) emptyWorld =
        (Image.mk 512 512 3, emptyWorld)) ∧
    ((Image.mk 512 512 3).size ≠ (1024, 1024) →
      validate_image modelLib (Image.mk 512 512 3) emptyWorld =
        (modelLib.resize (Image.mk 512 512 3) 1024 1024,
          emptyWorld.print ("Warning: Image is not 1024x1024. Auto-resizing..."))) :=
  c4_validate modelLib (Image.mk 512 512 3) emptyWorld (fun i a b => rfl)

theorem c6_windows_icon_witness :
    (generate_windows_icon modelLib (Image.mk 1024 1024 5) OUTPUT_DIR emptyWorld).2 =
      none ∧
    (generate_windows_icon modelLib (Image.mk 1024 1024 5) OUTPUT_DIR
        emptyWorld).1.fs.lookupFile (OUTPUT_DIR ++ ["icon.ico"]) =
      some (.ico (ICON_SIZES.windows.map
        (fun s => modelLib.resize (Image.mk 1024 1024 5) s.1 s.2))) ∧
    (ICON_SIZES.windows.map
        (fun s => modelLib.resize (Image.mk 1024 1024 5) s.1 s.2)).map Image.size =
      [(16, 16), (32, 32), (48, 48), (64, 64), (256, 256)] :=
  c6_windows_icon modelLib (Image.mk 1024 1024 5) OUTPUT_DIR emptyWorld
    (fun i a b => rfl) (fun l => rfl)

theorem c7_pack_failure_witness :
    (generate_macos_icon failPackLib (Image.mk 1024 1024 2) OUTPUT_DIR outDirsWorld).2 =
      some (Err.mk ("mock pack failure")) ∧
    (generate_macos_icon failPackLib (Image.mk 1024 1024 2) OUTPUT_DIR
        outDirsWorld).1.out =
      outDirsWorld.out ++ ["Error generating .icns: " ++ (Err.mk ("mock pack failure")).msg] ∧
    (OUTPUT_DIR ++ ["icon.iconset"]) ∉
      (generate_macos_icon failPackLib (Image.mk 1024 1024 2) OUTPUT_DIR
        outDirsWorld).1.fs.dirs :=
  c7_pack_failure failPackLib (Image.mk 1024 1024 2) OUTPUT_DIR outDirsWorld
    (Err.mk ("mock pack failure"))
    (FS.mk [] [["src-tauri"], ["src-tauri", "icons"], OUTPUT_DIR ++ ["icon.iconset"]])
    (fun i => rfl) (fun reps => rfl) rfl


/-- C8: the orchestrator equals the ordered composition of its phases
(source check, ensure output dir, load and validate, Linux, Windows,
macOS, report), every exception exits with status 1 and a single
prefixed message, and success ends with the success line. -/
theorem c8_pipeline (L : ExtLib) (sp : String) (w : World) :
    generate_icons L sp w = orchestrateCodeOrder L sp w ∧
    (∀ m, (generate_icons L sp w).2 = .exited m →
      exitCode (generate_icons L sp w).2 = 1 ∧ ∃ s, m = "✗ Error: " ++ s) ∧
    ((generate_icons L sp w).2 = .success →
      (generate_icons L sp w).1.out.getLast? =
        some ("✓ All icons generated successfully!")) := by
  cases hex : FS.existsPath w.fs (strToPath sp) with
  | false =>
    have hg : generate_icons L sp w =
        (w, .exited ("✗ Error: " ++ ("Source file not found: " ++
          pathStr (strToPath sp)))) := by
      simp [generate_icons, hex]
    have ho : orchestrateCodeOrder L sp w =
        (w, .exited ("✗ Error: " ++ ("Source file not found: " ++
          pathStr (strToPath sp)))) := by
      simp [orchestrateCodeOrder, checkSourcePhase, stepBind, hex]
    rw [hg, ho]
    refine ⟨rfl, fun m hm => ?_, fun hs => absurd hs (by simp)⟩
    have hm' : RunResult.exited ("✗ Error: " ++ ("Source file not found: " ++
        pathStr (strToPath sp))) = RunResult.exited m := hm
    cases hm'
    exact ⟨rfl, ⟨_, rfl⟩⟩
  | true =>
    cases hmk : FS.mkdirParents w.fs OUTPUT_DIR with
    | error e =>
      have hg : generate_icons L sp w = (w, .exited ("✗ Error: " ++ e.msg)) := by
        simp [generate_icons, hex, hmk]
      have ho : orchestrateCodeOrder L sp w = (w, .exited ("✗ Error: " ++ e.msg)) := by
        simp [orchestrateCodeOrder, checkSourcePhase, ensureOutputDirPhase,
          stepBind, hex, hmk]
      rw [hg, ho]
      refine ⟨rfl, fun m hm => ?_, fun hs => absurd hs (by simp)⟩
      have hm' : RunResult.exited ("✗ Error: " ++ e.msg) = RunResult.exited m := hm
      cases hm'
      exact ⟨rfl, ⟨_, rfl⟩⟩
    | ok fs1 =>
      cases hoi : openImage fs1 (strToPath sp) with
      | error e2 =>
        have hg : generate_icons L sp w =
            ({ w with fs := fs1 }, .exited ("✗ Error: " ++ e2.msg)) := by
          simp [generate_icons, hex, hmk, hoi]
        have ho : orchestrateCodeOrder L sp w =
            ({ w with fs := fs1 }, .exited ("✗ Error: " ++ e2.msg)) := by
          simp [orchestrateCodeOrder, checkSourcePhase, ensureOutputDirPhase,
            loadAndValidate, stepBind, hex, hmk, hoi]
        rw [hg, ho]
        refine ⟨rfl, fun m hm => ?_, fun hs => absurd hs (by simp)⟩
        have hm' : RunResult.exited ("✗ Error: " ++ e2.msg) = RunResult.exited m := hm
        cases hm'
        exact ⟨rfl, ⟨_, rfl⟩⟩
      | ok img0 =>
        cases hval : validate_image L img0 { w with fs := fs1 } with
        | mk image w2 =>
          cases hga : generateAll L image w2 with
          | mk w3 r =>
            cases r with
            | some e3 =>
              have hg : generate_icons L sp w = (w3, .exited ("✗ Error: " ++ e3.msg)) := by
                simp [generate_icons, processImage, hex, hmk, hoi, hval, hga]
              have ho : orchestrateCodeOrder L sp w =
                  (w3, .exited ("✗ Error: " ++ e3.msg)) := by
                simp [orchestrateCodeOrder, checkSourcePhase, ensureOutputDirPhase,
                  loadAndValidate, stepBind, hex, hmk, hoi, hval, hga]
              rw [hg, ho]
              refine ⟨rfl, fun m hm => ?_, fun hs => absurd hs (by simp)⟩
              have hm' : RunResult.exited ("✗ Error: " ++ e3.msg) =
                  RunResult.exited m := hm
              cases hm'
              exact ⟨rfl, ⟨_, rfl⟩⟩
            | none =>
              have hg : generate_icons L sp w =
                  (w3.print ("✓ All icons generated successfully!"), .success) := by
                simp [generate_icons, processImage, hex, hmk, hoi, hval, hga]
              have ho : orchestrateCodeOrder L sp w =
                  (w3.print ("✓ All icons generated successfully!"), .success) := by
                simp [orchestrateCodeOrder, checkSourcePhase, ensureOutputDirPhase,
                  loadAndValidate, stepBind, hex, hmk, hoi, hval, hga]
              rw [hg, ho]
              refine ⟨rfl, fun m hm => absurd hm (by simp), fun hs => ?_⟩
              simp [World.print, List.getLast?_concat]

/-- C8 counterexample to the claimed order: with a missing source, the code
exits before creating the output directory, while the claim's order
(ensure directory first, then load) would have created it. -/
theorem c8_spec_order_differs :
    generate_icons modelLib ("icon.png") emptyWorld ≠
      orchestrateSpecOrder modelLib ("icon.png") emptyWorld ∧
    (generate_icons modelLib ("icon.png") emptyWorld).1.fs.dirs = [] ∧
    (orchestrateSpecOrder modelLib ("icon.png") emptyWorld).1.fs.dirs =
      [["src-tauri"], ["src-tauri", "icons"]] := by
  exact ⟨by decide, by decide, by decide⟩

theorem c8_pipeline_witness :
    generate_icons modelLib ("icon.png") emptyWorld =
      orchestrateCodeOrder modelLib ("icon.png") emptyWorld ∧
    (exitCode (generate_icons modelLib ("icon.png") emptyWorld).2 = 1 ∧
      ∃ s, "✗ Error: Source file not found: icon.png" = "✗ Error: " ++ s) :=
  ⟨(c8_pipeline modelLib ("icon.png") emptyWorld).1,
   (c8_pipeline modelLib ("icon.png") emptyWorld).2.1
     "✗ Error: Source file not found: icon.png" (by decide)⟩

end IconGen
